import Mathlib

/-!
Verification of the Zabbix/Telegram bot's reconciliation routine (`zbx_setup`),
its JSON-RPC transport (`ZbxClient::rpc`), login fallback (`ZbxClient::login`),
and the allow-list predicate (`read_allowed_users` / `is_authorized`), as a
shallow embedding of `src/main.rs`.

Side-effecting parts (HTTP, the remote Zabbix server, the filesystem) are made
explicit: the transport is a function of the HTTP response, `login` is a
function of a responder oracle, `zbx_setup` is a state-passing function over a
remote-state snapshot together with the trace of RPC calls it issues, and
`read_allowed_users` is a function of the file-read outcome.
-/

namespace ZbxBot

/-- `haystack.contains(needle)` on Rust `&str`: substring containment. -/
def strContains (haystack needle : String) : Bool :=
  decide (needle.data <:+: haystack.data)

/-- Rust `char::to_lowercase` restricted to ASCII (the keys compared in this
program are ASCII). -/
def charToLower (c : Char) : Char :=
  if 'A' ≤ c ∧ c ≤ 'Z' then Char.ofNat (c.toNat + 32) else c

/-- Rust `str::to_lowercase` (ASCII model). -/
def strToLower (s : String) : String := ⟨s.data.map charToLower⟩

/-- The whitespace class Rust `str::trim` strips (ASCII model of Unicode
`White_Space`). -/
def isWsChar (c : Char) : Bool := c == ' ' || c == '\t' || c == '\n' || c == '\r'

/-- Rust `str::trim`: strip whitespace from both ends. -/
def strTrim (s : String) : String :=
  ⟨((s.data.dropWhile isWsChar).reverse.dropWhile isWsChar).reverse⟩

/-- Rust `str::is_empty`. -/
def strIsEmpty (s : String) : Bool := s.data.isEmpty

/-- Rust `str::starts_with(c)` for a single character. -/
def strStartsWith (s : String) (c : Char) : Bool :=
  match s.data with
  | [] => false
  | c' :: _ => c' == c

/-- The line splitter underlying Rust `str::lines()`: split on `'\n'`. Rust's
`lines()` additionally strips a `'\r'` before each `'\n'` and drops a final
empty fragment; both differences are erased downstream, where every line is
trimmed and blank lines are skipped. -/
def splitLines : List Char → List (List Char)
  | [] => [[]]
  | c :: rest =>
    if c == '\n' then [] :: splitLines rest
    else
      match splitLines rest with
      | [] => [[c]]
      | l :: ls => (c :: l) :: ls

/-- Rust `str::lines()` as described at `splitLines`. -/
def strLines (s : String) : List String := (splitLines s.data).map String.mk

/-! ## Transport (`ZbxClient::rpc`, src/main.rs lines 131-148)

`serde_json::Value` payloads are opaque here; we only need their identity, so
they are represented as strings. -/

/-- Opaque representation of a `serde_json::Value`. -/
abbrev JsonValue := String

/-- `RpcError` (src/main.rs lines 115-120): the `error` member of a JSON-RPC
envelope, with code, message and optional data. -/
structure RpcErrorObj where
  code : Int
  message : String
  data : Option JsonValue
deriving DecidableEq

/-- `RpcResponse` (src/main.rs lines 105-113): a parsed JSON-RPC envelope. -/
structure RpcResponse where
  jsonrpc : String
  result : Option JsonValue
  error : Option RpcErrorObj
  id : Nat
deriving DecidableEq

/-- The distinct failure shapes produced by `ZbxClient::rpc` and by the
underlying HTTP client (all are `anyhow::Error` in Rust; the constructors
record which `anyhow!`/`context` site produced them).
  * `sendError`: the HTTP request itself failed (network/transport);
  * `httpError`: a non-success HTTP status, carrying status code and raw body;
  * `parseError`: a 2xx body that does not parse as a JSON-RPC envelope;
  * `rpcError`: the envelope carried an `error` object;
  * `missingResult`: the envelope carried neither `result` nor `error`;
  * `decodeError`: the `result` value did not deserialize to the caller's type. -/
inductive ZbxError where
  | sendError (msg : String)
  | httpError (status : Nat) (body : String)
  | parseError (body : String)
  | rpcError (code : Int) (message : String) (data : Option JsonValue)
  | missingResult
  | decodeError
deriving DecidableEq

/-- `true` exactly for the failure produced by an application-level JSON-RPC
`error` object (the spec's RpcError kind). -/
def ZbxError.isRpc : ZbxError → Bool
  | .rpcError _ _ _ => true
  | _ => false

/-- Rust `{:?}` rendering of the `Option<serde_json::Value>` data field. -/
def dataDebug : Option JsonValue → String
  | none => "None"
  | some v => "Some(" ++ v ++ ")"

/-- `format!("\x7b\x7d", e)`: the `Display` text of each failure, exactly as the
`anyhow!`/`.context` sites in src/main.rs lines 137, 140, 142, 144 format it
(for `sendError` it is the HTTP client's own message). `ZbxClient::login`
substring-matches on this text. -/
def ZbxError.display : ZbxError → String
  | .sendError msg => msg
  | .httpError status body => "Zabbix API HTTP error: " ++ toString status ++ ": " ++ body
  | .parseError body => "Unable to parse JSON-RPC response: " ++ body
  | .rpcError code message data =>
      "Zabbix API error " ++ toString code ++ ": " ++ message ++ " " ++ dataDebug data
  | .missingResult => "Missing result in JSON-RPC response"
  | .decodeError => "Unable to deserialize JSON-RPC result to expected type"

/-- An HTTP response: status code and body text. -/
structure HttpResponse where
  status : Nat
  body : String
deriving DecidableEq

/-- `reqwest::StatusCode::is_success`: 2xx. -/
def statusIsSuccess (s : Nat) : Bool := 200 ≤ s && s ≤ 299

/-- `ZbxClient::rpc` (src/main.rs lines 131-148) after the HTTP exchange:
given the HTTP response, the body parser (serde) and the result decoder
(serde, caller's type `R`), classify the outcome. Mirrors the source order:
HTTP status check, envelope parse, `error` member, `result` member, decode. -/
def rpc {R : Type} (resp : HttpResponse) (parse : String → Option RpcResponse)
    (decode : JsonValue → Option R) : Except ZbxError R :=
  if !statusIsSuccess resp.status then
    .error (.httpError resp.status resp.body)
  else
    match parse resp.body with
    | none => .error (.parseError resp.body)
    | some parsed =>
      match parsed.error with
      | some err => .error (.rpcError err.code err.message err.data)
      | none =>
        match parsed.result with
        | none => .error .missingResult
        | some val =>
          match decode val with
          | none => .error .decodeError
          | some r => .ok r

/-! ## Login fallback (`ZbxClient::login`, src/main.rs lines 150-173) -/

/-- The two `user.login` parameter schemas: `ParamsNew` is
`\x7busername, password\x7d`, `ParamsOld` is `\x7buser, password\x7d`. -/
inductive LoginAttempt where
  | newSchema (username password : String)
  | oldSchema (user password : String)
deriving DecidableEq

/-- The substring test from src/main.rs line 163:
`msg.contains("Invalid params") || msg.contains("unexpected parameter \"username\"")`. -/
def retryTriggers (msg : String) : Bool :=
  strContains msg "Invalid params" || strContains msg "unexpected parameter \"username\""

/-- `ZbxClient::login` (src/main.rs lines 150-173), as a function of the remote
responder: returns the list of login attempts issued, in order, and the final
outcome (`ok token` sets `self.auth`). The new schema is tried first; on
failure, iff the displayed error message satisfies `retryTriggers`, one
fallback attempt with the old schema and the same credentials is issued and
its outcome returned; otherwise the first error is returned unchanged. -/
def login (user password : String) (respond : LoginAttempt → Except ZbxError String) :
    List LoginAttempt × Except ZbxError String :=
  match respond (.newSchema user password) with
  | .ok token => ([.newSchema user password], .ok token)
  | .error e =>
    if retryTriggers e.display then
      ([.newSchema user password, .oldSchema user password],
       respond (.oldSchema user password))
    else
      ([.newSchema user password], .error e)

/-! ## Data model for `zbx_setup` (src/main.rs lines 176-320)

A media-type parameter is a Rust `HashMap<String, String>`; we model it as a
duplicate-free-by-use association list with `get`/`insert` matching
`HashMap::get` / `HashMap::insert` (insert overwrites the entry for an
existing key in place, otherwise adds one). -/

/-- One entry of `MediaType.parameters`: model of `HashMap<String, String>`. -/
abbrev Param := List (String × String)

/-- `HashMap::get(k)`: the value stored at key `k`, if any. -/
def hmGet : Param → String → Option String
  | [], _ => none
  | (k', v') :: rest, k => if k' == k then some v' else hmGet rest k

/-- `HashMap::insert(k, v)`: overwrite the entry at `k`, or add one. -/
def hmInsert : Param → String → String → Param
  | [], k, v => [(k, v)]
  | (k', v') :: rest, k, v =>
    if k' == k then (k, v) :: rest else (k', v') :: hmInsert rest k v

/-- `MediaType` (src/main.rs lines 176-184). -/
structure MediaType where
  mediatypeid : String
  name : String
  status : Option String
  parameters : Option (List Param)
deriving DecidableEq

/-- `UserMedia` (src/main.rs lines 189-196): one contact-address entry. -/
structure UserMedia where
  mediatypeid : String
  sendto : String
  active : String
  severity : String
  period : String
deriving DecidableEq

/-- A Zabbix user as `user.get` returns it (src/main.rs lines 261-267):
`userid`, `alias`, and the `medias` list (entries that fail to deserialize as
`UserMedia` are dropped by the `filter_map` on line 266, so the model keeps
the typed list directly). The Rust field `alias` is a reserved word in Lean,
hence `alias_`. -/
structure ZUser where
  userid : String
  alias_ : String
  medias : List UserMedia
deriving DecidableEq

/-- A Zabbix action as `action.get` returns it (src/main.rs line 285). -/
structure ZAction where
  actionid : String
  name : String
deriving DecidableEq

/-- `OpMessage` (src/main.rs line 288). -/
structure OpMessage where
  default_msg : Int
  mediatypeid : String
  subject : String
  message : String
deriving DecidableEq

/-- `OpUser` (src/main.rs line 290). -/
structure OpUser where
  userid : String
deriving DecidableEq

/-- `Operation` (src/main.rs line 292). -/
structure Operation where
  operationtype : Int
  opmessage : OpMessage
  opmessage_usr : List OpUser
deriving DecidableEq

/-- `ActionCreate` (src/main.rs lines 293-299): the `action.create` payload. -/
structure ActionCreate where
  name : String
  eventsource : Int
  status : Int
  operations : List Operation
deriving DecidableEq

/-- The remote Zabbix state visible to `zbx_setup`: the media types, users and
actions the list calls read. -/
structure ZbxState where
  mediaTypes : List MediaType
  users : List ZUser
  actions : List ZAction
deriving DecidableEq

/-- The configuration `zbx_setup` reads from the environment
(src/main.rs lines 199-205, 224-226): recipient alias (`ZBX_USER_ALIAS`),
chat id (`ZBX_CHAT_ID`), action name (`ZBX_ACTION_NAME`), and the optional bot
token (`TELEGRAM_BOT_TOKEN` / `ZBX_BOT_TOKEN`; `none` when neither is set). -/
structure Config where
  userAlias : String
  chatId : String
  actionName : String
  botToken : Option String
deriving DecidableEq

/-- The RPC calls `zbx_setup` issues, in order, with their payloads. -/
inductive Call where
  | mediatypeGet (name : String)
  | mediatypeUpdate (mediatypeid : String) (parameters : List Param)
  | userGet (alias_ : String)
  | userUpdate (userid : String) (medias : List UserMedia)
  | actionGet (name : String)
  | actionCreate (payload : ActionCreate)
deriving DecidableEq

/-- `true` for the state-changing (write) calls. -/
def Call.isWrite : Call → Bool
  | .mediatypeUpdate _ _ => true
  | .userUpdate _ _ => true
  | .actionCreate _ => true
  | _ => false

/-- The fatal domain errors `zbx_setup` can raise from lookups
(src/main.rs lines 219, 262). -/
inductive SetupError where
  | mediaTypeNotFound
  | userNotFound
deriving DecidableEq

/-! ## The reconciliation steps of `zbx_setup` -/

/-- The per-parameter loop body of the media-type token update
(src/main.rs lines 230-241): if the entry's `name` key lowercases to
`"token"` or `"bottoken"` and its `value` key differs from the bot token or
is absent, overwrite `value` with the bot token and flag the update. -/
def updateParam (botToken : String) (p : Param) : Param × Bool :=
  match hmGet p "name" with
  | some name =>
    if strToLower name == "token" || strToLower name == "bottoken" then
      if (match hmGet p "value" with | some v => v != botToken | none => true) then
        (hmInsert p "value" botToken, true)
      else (p, false)
    else (p, false)
  | none => (p, false)

/-- The whole parameter scan (src/main.rs lines 228-241): rebuild the
parameter list in order, flagging whether any entry changed (`needs_update`). -/
def mtReconcile (botToken : String) : List Param → List Param × Bool
  | [] => ([], false)
  | p :: rest =>
    let r := updateParam botToken p
    let rs := mtReconcile botToken rest
    (r.1 :: rs.1, r.2 || rs.2)

/-- The contact-address entry `zbx_setup` appends (src/main.rs line 271):
fixed defaults `active = "0"`, `severity = "63"`, `period = "1-7,00:00-24:00"`. -/
def defaultMedia (mediatypeid chatId : String) : UserMedia :=
  { mediatypeid := mediatypeid, sendto := chatId, active := "0", severity := "63",
    period := "1-7,00:00-24:00" }

/-- The duplicate test of src/main.rs line 269: same `(mediatypeid, sendto)`. -/
def mediaMatches (mediatypeid chatId : String) (m : UserMedia) : Bool :=
  m.mediatypeid == mediatypeid && m.sendto == chatId

/-- The recipient step's decision (src/main.rs lines 269-279): `none` when an
existing entry already matches (no `user.update` issued); otherwise the full
list to submit — every existing entry followed by the new one. -/
def recipientReconcile (mediatypeid chatId : String) (medias : List UserMedia) :
    Option (List UserMedia) :=
  if medias.any (mediaMatches mediatypeid chatId) then none
  else some (medias ++ [defaultMedia mediatypeid chatId])

/-- The `action.create` payload (src/main.rs lines 300-310): trigger-based
(`eventsource = 0`), enabled (`status = 0`), one operation whose message
references the media-type id and whose recipient list is the single user id. -/
def mkActionCreate (name mediatypeid userid : String) : ActionCreate :=
  { name := name, eventsource := 0, status := 0,
    operations := [
      { operationtype := 0,
        opmessage :=
          { default_msg := 0, mediatypeid := mediatypeid,
            subject := "\x7bHOST.NAME\x7d | Problem: \x7bEVENT.NAME\x7d",
            message := "Problem started at \x7bEVENT.TIME\x7d on \x7bEVENT.DATE\x7d\nProblem name: \x7bEVENT.NAME\x7d\nHost: \x7bHOST.NAME\x7d\nSeverity: \x7bTRIGGER.SEVERITY\x7d\nOriginal problem ID: #\x7bEVENT.ID\x7d\n\x7bTRIGGER.URL\x7d" },
        opmessage_usr := [{ userid := userid }] } ] }

/-! ## Remote write semantics

Modelled from the spec: the remote copies are authoritative and the update
calls replace whole lists (spec "DATA MODEL": update requests carry the full
parameter list, not a delta; `user.update` submits the identifier plus the
full resulting address list; `action.create` adds a rule under the given
name). These functions state how the server applies each write call. -/

/-- Modelled from the spec: `mediatype.update` replaces the parameter list of
the media type with the given id. -/
def applyMediatypeUpdate (mediatypeid : String) (ps : List Param) (s : ZbxState) : ZbxState :=
  { s with mediaTypes := s.mediaTypes.map fun m =>
      if m.mediatypeid == mediatypeid then { m with parameters := some ps } else m }

/-- Modelled from the spec: `user.update` replaces the media list of the user
with the given id. -/
def applyUserUpdate (userid : String) (ms : List UserMedia) (s : ZbxState) : ZbxState :=
  { s with users := s.users.map fun u =>
      if u.userid == userid then { u with medias := ms } else u }

/-- Modelled from the spec: `action.create` adds an action with the payload's
name (the server assigns the id). -/
def applyActionCreate (p : ActionCreate) (s : ZbxState) : ZbxState :=
  { s with actions := s.actions ++ [{ actionid := "", name := p.name }] }

/-! ## The pipeline stages and `zbx_setup` -/

/-- `mediatype.get` filtered by `name = "Telegram"`, then `.first()`
(src/main.rs lines 217-219). -/
def findMediaType (s : ZbxState) : Option MediaType :=
  (s.mediaTypes.filter fun m => m.name == "Telegram").head?

/-- The media-type token step (src/main.rs lines 224-255): skipped when no bot
token is configured or the media type has no parameter list; otherwise issues
`mediatype.update` with the full rewritten list iff the scan flagged a change.
Returns the state after the step and the write calls issued. -/
def channelStep (botToken : Option String) (mt : MediaType) (s : ZbxState) :
    ZbxState × List Call :=
  match botToken with
  | none => (s, [])
  | some tok =>
    match mt.parameters with
    | none => (s, [])
    | some params =>
      if (mtReconcile tok params).2 then
        (applyMediatypeUpdate mt.mediatypeid (mtReconcile tok params).1 s,
         [.mediatypeUpdate mt.mediatypeid (mtReconcile tok params).1])
      else (s, [])

/-- `user.get` filtered by alias, then `.first()` (src/main.rs lines 258-262). -/
def findUser (alias_ : String) (s : ZbxState) : Option ZUser :=
  (s.users.filter fun u => u.alias_ == alias_).head?

/-- The recipient step (src/main.rs lines 269-279): issues `user.update` with
the full appended list iff no existing entry matches. -/
def userStep (mediatypeid chatId : String) (u : ZUser) (s : ZbxState) :
    ZbxState × List Call :=
  match recipientReconcile mediatypeid chatId u.medias with
  | none => (s, [])
  | some newMedias =>
    (applyUserUpdate u.userid newMedias s, [.userUpdate u.userid newMedias])

/-- `action.get` filtered by name (src/main.rs lines 282-285). -/
def findActions (name : String) (s : ZbxState) : List ZAction :=
  s.actions.filter fun a => a.name == name

/-- The action step (src/main.rs lines 286-316): issues `action.create` with
the fixed payload iff the filtered list is empty. -/
def actionStep (name mediatypeid userid : String) (s : ZbxState) :
    ZbxState × List Call :=
  if (findActions name s).isEmpty then
    (applyActionCreate (mkActionCreate name mediatypeid userid) s,
     [.actionCreate (mkActionCreate name mediatypeid userid)])
  else (s, [])

/-- `zbx_setup` (src/main.rs lines 198-320) as a function of the configuration
and the remote state: returns the full trace of RPC calls issued, in source
order, and either a fatal lookup error or the final remote state. Login and
environment reading are outside this model (the remote here answers every
list/update call from the state). -/
def zbx_setup (cfg : Config) (s : ZbxState) : List Call × Except SetupError ZbxState :=
  match findMediaType s with
  | none => ([.mediatypeGet "Telegram"], .error .mediaTypeNotFound)
  | some mt =>
    match findUser cfg.userAlias (channelStep cfg.botToken mt s).1 with
    | none =>
      ([.mediatypeGet "Telegram"] ++ (channelStep cfg.botToken mt s).2
        ++ [.userGet cfg.userAlias],
       .error .userNotFound)
    | some u =>
      ([.mediatypeGet "Telegram"] ++ (channelStep cfg.botToken mt s).2
        ++ [.userGet cfg.userAlias]
        ++ (userStep mt.mediatypeid cfg.chatId u (channelStep cfg.botToken mt s).1).2
        ++ [.actionGet cfg.actionName]
        ++ (actionStep cfg.actionName mt.mediatypeid u.userid
             (userStep mt.mediatypeid cfg.chatId u (channelStep cfg.botToken mt s).1).1).2,
       .ok (actionStep cfg.actionName mt.mediatypeid u.userid
             (userStep mt.mediatypeid cfg.chatId u (channelStep cfg.botToken mt s).1).1).1)

/-! ## Allow-list loading (`read_allowed_users`, src/main.rs lines 44-67) and
the authorization predicate (`is_authorized`, src/main.rs lines 382-385) -/

/-- Rust `str::parse::<i64>()`: optional `+`/`-` sign, then one or more ASCII
digits, nothing else; overflow past the i64 range is an error. -/
def parseI64 (s : String) : Option Int :=
  let p : Int × List Char :=
    match s.data with
    | '+' :: rest => (1, rest)
    | '-' :: rest => (-1, rest)
    | cs => (1, cs)
  if p.2.isEmpty then none
  else if p.2.all Char.isDigit then
    let v : Int := p.1 * ((p.2.foldl (fun acc c => acc * 10 + (c.toNat - 48)) 0 : Nat) : Int)
    if -(2 ^ 63) ≤ v ∧ v ≤ 2 ^ 63 - 1 then some v else none
  else none

/-- `HashSet::insert`: add the element if not already present. -/
def hsInsert (s : List Int) (x : Int) : List Int :=
  if s.contains x then s else s ++ [x]

/-- The line loop of `read_allowed_users` (src/main.rs lines 55-66) over the
file content: trim each line, skip empty and `#`-comment lines, insert lines
that parse as `i64`, and skip (with a warning) lines that do not. `lines()`
is modelled as splitting on `\n`; the `\r` stripped by Rust's `lines()` is
removed by `trim` anyway and a trailing empty fragment is skipped as blank,
so the resulting set is the same. -/
def read_allowed_users_content (content : String) : List Int :=
  (strLines content).foldl
    (fun set line =>
      if strIsEmpty (strTrim line) || strStartsWith (strTrim line) '#' then set
      else
        match parseI64 (strTrim line) with
        | some id => hsInsert set id
        | none => set)
    []

/-- The outcome of `fs::read_to_string` on the allow-list file. -/
inductive FileReadOutcome where
  | content (text : String)
  | notFound
  | otherError (msg : String)
deriving DecidableEq

/-- `read_allowed_users` (src/main.rs lines 44-67): not-found yields an empty
set (warning only); any other read error is returned as an error; otherwise
the content is processed line by line. -/
def read_allowed_users : FileReadOutcome → Except String (List Int)
  | .content text => .ok (read_allowed_users_content text)
  | .notFound => .ok []
  | .otherError msg => .error msg

/-- `is_authorized` (src/main.rs lines 382-385): membership of the user id in
the loaded allow-list set. -/
def is_authorized (allowed_users : List Int) (user_id : Int) : Bool :=
  allowed_users.contains user_id

/-! ## Concrete fixtures

Closed inputs used to evaluate the definitions in witness theorems. -/

/-- A configuration with every reconciliation input present. -/
def cfgEx : Config :=
  { userAlias := "Admin", chatId := "99", actionName := "A", botToken := some "NEW" }

/-- A remote state in which every reconciliation step has work to do: the
token parameter is stale, the contact address is missing, no action exists. -/
def stEx : ZbxState :=
  { mediaTypes := [{ mediatypeid := "10", name := "Telegram", status := none,
                     parameters := some [[("name", "Token"), ("value", "OLD")]] }],
    users := [{ userid := "1", alias_ := "Admin", medias := [] }],
    actions := [] }

/-- The remote state `zbx_setup cfgEx stEx` reaches. -/
def stEx' : ZbxState :=
  { mediaTypes := [{ mediatypeid := "10", name := "Telegram", status := none,
                     parameters := some [[("name", "Token"), ("value", "NEW")]] }],
    users := [{ userid := "1", alias_ := "Admin",
                medias := [defaultMedia "10" "99"] }],
    actions := [{ actionid := "", name := "A" }] }

/-- A login responder whose new-schema answer is the legacy RPC complaint and
whose old-schema answer is a session token. -/
def respondEx : LoginAttempt → Except ZbxError String
  | .newSchema _ _ => .error (.rpcError (-32602) "Invalid params." none)
  | .oldSchema _ _ => .ok "0424bd59b807674191e7d77572075f33"

/-! ## Helper lemmas -/

theorem hmGet_hmInsert_self (p : Param) (k v : String) :
    hmGet (hmInsert p k v) k = some v := by
  induction p with
  | nil => simp [hmInsert, hmGet]
  | cons kv rest ih =>
    obtain ⟨k', v'⟩ := kv
    by_cases h : k' = k
    · simp [hmInsert, hmGet, h]
    · simp only [hmInsert, hmGet, beq_iff_eq, if_neg h]
      simp [hmGet, if_neg h, ih]

theorem hmGet_hmInsert_ne (p : Param) (k v q : String) (h : q ≠ k) :
    hmGet (hmInsert p k v) q = hmGet p q := by
  induction p with
  | nil =>
    have hk : (k == q) = false := beq_eq_false_iff_ne.mpr (Ne.symm h)
    simp [hmInsert, hmGet, hk]
  | cons kv rest ih =>
    obtain ⟨k', v'⟩ := kv
    by_cases hk : k' = k
    · subst hk
      have hkq : (k' == q) = false := beq_eq_false_iff_ne.mpr (Ne.symm h)
      simp [hmInsert, hmGet, hkq]
    · have hk2 : (k' == k) = false := beq_eq_false_iff_ne.mpr hk
      by_cases hq : k' = q
      · simp [hmInsert, hmGet, hk2, hq, h]
      · have hq2 : (k' == q) = false := beq_eq_false_iff_ne.mpr hq
        simp [hmInsert, hmGet, hk2, hq2, ih]

theorem updateParam_of_clean (tok : String) (p : Param)
    (h : (updateParam tok p).2 = false) : (updateParam tok p).1 = p := by
  unfold updateParam at *
  cases hn : hmGet p "name" with
  | none => simp
  | some name =>
    simp only [hn] at h ⊢
    by_cases ht : (strToLower name == "token" || strToLower name == "bottoken") = true
    · simp only [ht, if_pos] at h ⊢
      cases hv : hmGet p "value" with
      | none => simp [hv] at h
      | some v =>
        simp only [hv] at h ⊢
        by_cases hd : (v != tok) = true
        · simp [hd] at h
        · simp [hd]
    · simp [ht] at h ⊢

theorem updateParam_of_dirty (tok : String) (p : Param)
    (hd : (updateParam tok p).2 = true) :
    (updateParam tok p).1 = hmInsert p "value" tok := by
  unfold updateParam at hd ⊢
  cases hn : hmGet p "name" with
  | none => simp [hn] at hd
  | some name =>
    simp only [hn] at hd ⊢
    by_cases ht : (strToLower name == "token" || strToLower name == "bottoken") = true
    · simp only [ht, if_pos] at hd ⊢
      cases hv : hmGet p "value" with
      | none => simp
      | some v =>
        simp only [hv] at hd ⊢
        by_cases hne : (v != tok) = true
        · simp [hne]
        · simp [hne] at hd
    · simp [ht] at hd

theorem updateParam_dirty_iff (tok : String) (p : Param) :
    (updateParam tok p).2 = true ↔
      ∃ n, hmGet p "name" = some n ∧
        (strToLower n = "token" ∨ strToLower n = "bottoken") ∧
        hmGet p "value" ≠ some tok := by
  unfold updateParam
  cases hn : hmGet p "name" with
  | none => simp
  | some name =>
    simp only []
    by_cases ht : (strToLower name == "token" || strToLower name == "bottoken") = true
    · simp only [ht, if_pos]
      cases hv : hmGet p "value" with
      | none =>
        simp only [if_pos trivial]
        constructor
        · intro _
          exact ⟨name, rfl, by simpa [beq_iff_eq] using ht, by simp⟩
        · intro _; trivial
      | some v =>
        by_cases hne : (v != tok) = true
        · simp only [hne, if_pos]
          constructor
          · intro _
            refine ⟨name, rfl, by simpa [beq_iff_eq] using ht, ?_⟩
            have : v ≠ tok := by simpa using hne
            simp [this]
          · intro _; trivial
        · have hveq : v = tok := by simpa using hne
          simp only [hne]
          constructor
          · intro hfalse; simp at hfalse
          · rintro ⟨n, hn', _, hval⟩
            rw [hn'] at hn
            exact absurd (by rw [hveq]) hval
    · simp only [ht]
      constructor
      · intro hfalse; simp at hfalse
      · rintro ⟨n, hn', hcase, _⟩
        obtain rfl : n = name := (Option.some.inj hn').symm
        exfalso
        apply ht
        rcases hcase with hc | hc <;> simp [hc]

theorem updateParam_idem (tok : String) (p : Param) :
    updateParam tok (updateParam tok p).1 = ((updateParam tok p).1, false) := by
  cases hd : (updateParam tok p).2 with
  | false =>
    have h1 := updateParam_of_clean tok p hd
    rw [h1]
    exact Prod.ext h1 hd
  | true =>
    have h1 : (updateParam tok p).1 = hmInsert p "value" tok :=
      updateParam_of_dirty tok p hd
    have hname : hmGet (hmInsert p "value" tok) "name" = hmGet p "name" :=
      hmGet_hmInsert_ne p "value" tok "name" (by decide)
    have hval : hmGet (hmInsert p "value" tok) "value" = some tok :=
      hmGet_hmInsert_self p "value" tok
    rw [h1]
    unfold updateParam at hd ⊢
    rw [hname]
    cases hn : hmGet p "name" with
    | none => simp [hn] at hd
    | some name =>
      simp only [hn] at hd ⊢
      by_cases ht : (strToLower name == "token" || strToLower name == "bottoken") = true
      · simp [ht, hval]
      · simp [ht] at hd

theorem mtReconcile_fst (tok : String) (ps : List Param) :
    (mtReconcile tok ps).1 = ps.map fun p => (updateParam tok p).1 := by
  induction ps with
  | nil => rfl
  | cons p rest ih => simp [mtReconcile, ih]

theorem mtReconcile_snd (tok : String) (ps : List Param) :
    (mtReconcile tok ps).2 = ps.any fun p => (updateParam tok p).2 := by
  induction ps with
  | nil => rfl
  | cons p rest ih => simp [mtReconcile, ih]

theorem mtReconcile_idem (tok : String) (ps : List Param) :
    mtReconcile tok (mtReconcile tok ps).1 = ((mtReconcile tok ps).1, false) := by
  induction ps with
  | nil => rfl
  | cons p rest ih =>
    simp only [mtReconcile]
    rw [updateParam_idem tok p, ih]
    simp

theorem mtReconcile_of_clean (tok : String) (ps : List Param)
    (h : (mtReconcile tok ps).2 = false) : (mtReconcile tok ps).1 = ps := by
  induction ps with
  | nil => rfl
  | cons p rest ih =>
    simp only [mtReconcile, Bool.or_eq_false_iff] at h
    simp only [mtReconcile]
    rw [updateParam_of_clean tok p h.1, ih h.2]

theorem findMediaType_congr {s t : ZbxState} (h : s.mediaTypes = t.mediaTypes) :
    findMediaType s = findMediaType t := by
  unfold findMediaType; rw [h]

theorem findUser_congr (al : String) {s t : ZbxState} (h : s.users = t.users) :
    findUser al s = findUser al t := by
  unfold findUser; rw [h]

theorem findActions_congr (n : String) {s t : ZbxState} (h : s.actions = t.actions) :
    findActions n s = findActions n t := by
  unfold findActions; rw [h]

theorem channelStep_users (bt : Option String) (mt : MediaType) (s : ZbxState) :
    ((channelStep bt mt s).1).users = s.users := by
  unfold channelStep
  cases bt with
  | none => rfl
  | some tok =>
    cases hp : mt.parameters with
    | none => rfl
    | some params =>
      by_cases hd : (mtReconcile tok params).2 = true
      · simp [hd, applyMediatypeUpdate]
      · simp [hd]

theorem channelStep_actions (bt : Option String) (mt : MediaType) (s : ZbxState) :
    ((channelStep bt mt s).1).actions = s.actions := by
  unfold channelStep
  cases bt with
  | none => rfl
  | some tok =>
    cases hp : mt.parameters with
    | none => rfl
    | some params =>
      by_cases hd : (mtReconcile tok params).2 = true
      · simp [hd, applyMediatypeUpdate]
      · simp [hd]

theorem userStep_mediaTypes (mid cid : String) (u : ZUser) (s : ZbxState) :
    ((userStep mid cid u s).1).mediaTypes = s.mediaTypes := by
  unfold userStep
  cases hr : recipientReconcile mid cid u.medias with
  | none => rfl
  | some newMedias => simp [applyUserUpdate]

theorem userStep_actions (mid cid : String) (u : ZUser) (s : ZbxState) :
    ((userStep mid cid u s).1).actions = s.actions := by
  unfold userStep
  cases hr : recipientReconcile mid cid u.medias with
  | none => rfl
  | some newMedias => simp [applyUserUpdate]

theorem actionStep_mediaTypes (n mid uid : String) (s : ZbxState) :
    ((actionStep n mid uid s).1).mediaTypes = s.mediaTypes := by
  unfold actionStep
  by_cases he : (findActions n s).isEmpty = true
  · simp [he, applyActionCreate]
  · simp [he]

theorem actionStep_users (n mid uid : String) (s : ZbxState) :
    ((actionStep n mid uid s).1).users = s.users := by
  unfold actionStep
  by_cases he : (findActions n s).isEmpty = true
  · simp [he, applyActionCreate]
  · simp [he]

theorem channelStep_stable (bt : Option String) (mt : MediaType) (s : ZbxState)
    (hm : findMediaType s = some mt) (t : ZbxState)
    (ht : t.mediaTypes = ((channelStep bt mt s).1).mediaTypes) :
    ∃ mt', findMediaType t = some mt' ∧ mt'.mediatypeid = mt.mediatypeid ∧
      channelStep bt mt' t = (t, []) := by
  cases bt with
  | none =>
    refine ⟨mt, ?_, rfl, rfl⟩
    rw [findMediaType_congr (s := t) (t := s) (by rw [ht]; rfl), hm]
  | some tok =>
    cases hp : mt.parameters with
    | none =>
      have hs : (channelStep (some tok) mt s).1 = s := by
        unfold channelStep; rw [hp]
      refine ⟨mt, ?_, rfl, ?_⟩
      · rw [findMediaType_congr (s := t) (t := s) (by rw [ht, hs]), hm]
      · unfold channelStep; rw [hp]
    | some params =>
      cases hd : (mtReconcile tok params).2 with
      | false =>
        have hs : (channelStep (some tok) mt s).1 = s := by
          unfold channelStep; rw [hp]; simp [hd]
        refine ⟨mt, ?_, rfl, ?_⟩
        · rw [findMediaType_congr (s := t) (t := s) (by rw [ht, hs]), hm]
        · unfold channelStep; rw [hp]; simp [hd]
      | true =>
        have hs : (channelStep (some tok) mt s).1 =
            applyMediatypeUpdate mt.mediatypeid (mtReconcile tok params).1 s := by
          unfold channelStep; rw [hp]; simp [hd]
        have hmap : findMediaType t = (findMediaType s).map fun m =>
            if m.mediatypeid == mt.mediatypeid then
              { m with parameters := some (mtReconcile tok params).1 } else m := by
          unfold findMediaType
          have htm : t.mediaTypes = s.mediaTypes.map fun m =>
              if m.mediatypeid == mt.mediatypeid then
                { m with parameters := some (mtReconcile tok params).1 } else m := by
            rw [ht, hs]; rfl
          rw [htm, List.filter_map, List.head?_map]
          have hcomp : ((fun m : MediaType => m.name == "Telegram") ∘ fun m =>
              if m.mediatypeid == mt.mediatypeid then
                { m with parameters := some (mtReconcile tok params).1 } else m) =
              fun m : MediaType => m.name == "Telegram" := by
            funext m
            by_cases hid : (m.mediatypeid == mt.mediatypeid) = true
            · simp [Function.comp, hid]
            · simp [Function.comp, hid]
          rw [hcomp]
        refine ⟨{ mt with parameters := some (mtReconcile tok params).1 }, ?_, rfl, ?_⟩
        · rw [hmap, hm]
          simp
        · unfold channelStep
          simp [mtReconcile_idem]

theorem mediaMatches_defaultMedia (mid cid : String) :
    mediaMatches mid cid (defaultMedia mid cid) = true := by
  simp [mediaMatches, defaultMedia]

theorem recipientReconcile_some (mid cid : String) (medias newMedias : List UserMedia)
    (hr : recipientReconcile mid cid medias = some newMedias) :
    newMedias = medias ++ [defaultMedia mid cid] := by
  unfold recipientReconcile at hr
  by_cases h : medias.any (mediaMatches mid cid) = true
  · simp [h] at hr
  · simp [h] at hr; exact hr.symm

theorem recipientReconcile_appended (mid cid : String) (medias : List UserMedia) :
    recipientReconcile mid cid (medias ++ [defaultMedia mid cid]) = none := by
  unfold recipientReconcile
  have : (medias ++ [defaultMedia mid cid]).any (mediaMatches mid cid) = true := by
    rw [List.any_append]
    simp [mediaMatches_defaultMedia]
  simp [this]

theorem userStep_stable (mid cid al : String) (u : ZUser) (s : ZbxState)
    (hu : findUser al s = some u) (t : ZbxState)
    (ht : t.users = ((userStep mid cid u s).1).users) :
    ∃ u', findUser al t = some u' ∧ u'.userid = u.userid ∧
      userStep mid cid u' t = (t, []) := by
  cases hr : recipientReconcile mid cid u.medias with
  | none =>
    have hs : (userStep mid cid u s).1 = s := by
      unfold userStep; rw [hr]
    refine ⟨u, ?_, rfl, ?_⟩
    · rw [findUser_congr al (s := t) (t := s) (by rw [ht, hs]), hu]
    · unfold userStep; rw [hr]
  | some newMedias =>
    have hnew : newMedias = u.medias ++ [defaultMedia mid cid] :=
      recipientReconcile_some mid cid u.medias newMedias hr
    have hs : (userStep mid cid u s).1 = applyUserUpdate u.userid newMedias s := by
      unfold userStep; rw [hr]
    have hmap : findUser al t = (findUser al s).map fun w =>
        if w.userid == u.userid then { w with medias := newMedias } else w := by
      unfold findUser
      have htu : t.users = s.users.map fun w =>
          if w.userid == u.userid then { w with medias := newMedias } else w := by
        rw [ht, hs]; rfl
      rw [htu, List.filter_map, List.head?_map]
      have hcomp : ((fun w : ZUser => w.alias_ == al) ∘ fun w =>
          if w.userid == u.userid then { w with medias := newMedias } else w) =
          fun w : ZUser => w.alias_ == al := by
        funext w
        by_cases hid : (w.userid == u.userid) = true
        · simp [Function.comp, hid]
        · simp [Function.comp, hid]
      rw [hcomp]
    refine ⟨{ u with medias := newMedias }, ?_, rfl, ?_⟩
    · rw [hmap, hu]
      simp
    · unfold userStep
      have : recipientReconcile mid cid newMedias = none := by
        rw [hnew]; exact recipientReconcile_appended mid cid u.medias
      simp only [this]

theorem actionStep_stable (n mid uid : String) (s : ZbxState) (t : ZbxState)
    (ht : t.actions = ((actionStep n mid uid s).1).actions) (mid' uid' : String) :
    actionStep n mid' uid' t = (t, []) := by
  unfold actionStep at ht ⊢
  by_cases he : (findActions n s).isEmpty = true
  · rw [if_pos he] at ht
    have hta : t.actions = s.actions ++ [{ actionid := "", name := n }] := by
      rw [ht]; rfl
    have : (findActions n t).isEmpty = false := by
      unfold findActions
      rw [hta, List.filter_append]
      simp [List.isEmpty_iff]
    simp [this]
  · rw [if_neg he] at ht
    have : (findActions n t).isEmpty = false := by
      rw [findActions_congr n (s := t) (t := s) (by rw [ht])]
      exact Bool.not_eq_true _ ▸ (by simpa using he)
    simp [this]

theorem zbx_setup_ok_inv (cfg : Config) (s s1 : ZbxState) (calls : List Call)
    (h : zbx_setup cfg s = (calls, .ok s1)) :
    ∃ mt u, findMediaType s = some mt ∧
      findUser cfg.userAlias (channelStep cfg.botToken mt s).1 = some u ∧
      s1 = (actionStep cfg.actionName mt.mediatypeid u.userid
             (userStep mt.mediatypeid cfg.chatId u (channelStep cfg.botToken mt s).1).1).1 := by
  unfold zbx_setup at h
  cases hmt : findMediaType s with
  | none =>
    rw [hmt] at h
    simp only [] at h
    exact absurd (congrArg Prod.snd h) (by simp)
  | some mt =>
    rw [hmt] at h
    simp only [] at h
    cases hu : findUser cfg.userAlias (channelStep cfg.botToken mt s).1 with
    | none =>
      rw [hu] at h
      simp only [] at h
      exact absurd (congrArg Prod.snd h) (by simp)
    | some u =>
      rw [hu] at h
      simp only [] at h
      have h2 := congrArg Prod.snd h
      simp only [] at h2
      refine ⟨mt, u, rfl, hu, ?_⟩
      exact ((Except.ok.injEq _ _).mp h2).symm

theorem channelStep_calls (bt : Option String) (mt : MediaType) (s : ZbxState) :
    (channelStep bt mt s).2 = [] ∨
      ∃ ps, (channelStep bt mt s).2 = [Call.mediatypeUpdate mt.mediatypeid ps] := by
  unfold channelStep
  cases bt with
  | none => exact Or.inl rfl
  | some tok =>
    cases hp : mt.parameters with
    | none => exact Or.inl rfl
    | some params =>
      by_cases hd : (mtReconcile tok params).2 = true
      · exact Or.inr ⟨(mtReconcile tok params).1, by simp [hd]⟩
      · exact Or.inl (by simp [hd])

theorem mem_hsInsert (s : List Int) (y x : Int) :
    x ∈ hsInsert s y ↔ x ∈ s ∨ x = y := by
  unfold hsInsert
  by_cases hc : s.contains y = true
  · have hy : y ∈ s := by simpa [List.contains, List.elem_iff] using hc
    simp only [hc, if_pos]
    constructor
    · exact Or.inl
    · rintro (h | rfl)
      · exact h
      · exact hy
  · simp only [hc]
    simp [List.mem_append]

theorem mem_readUsersFold (x : Int) (ls : List String) (acc : List Int) :
    x ∈ ls.foldl
        (fun set line =>
          if strIsEmpty (strTrim line) || strStartsWith (strTrim line) '#' then set
          else
            match parseI64 (strTrim line) with
            | some id => hsInsert set id
            | none => set)
        acc ↔
      x ∈ acc ∨ ∃ line ∈ ls,
        strIsEmpty (strTrim line) = false ∧ strStartsWith (strTrim line) '#' = false ∧
        parseI64 (strTrim line) = some x := by
  induction ls generalizing acc with
  | nil => simp
  | cons l rest ih =>
    simp only [List.foldl_cons, List.mem_cons]
    rw [ih]
    by_cases h1 : (strIsEmpty (strTrim l) || strStartsWith (strTrim l) '#') = true
    · have hbody :
          (if strIsEmpty (strTrim l) || strStartsWith (strTrim l) '#' then acc
           else
             match parseI64 (strTrim l) with
             | some id => hsInsert acc id
             | none => acc) = acc := if_pos h1
      rw [hbody]
      constructor
      · rintro (h | h)
        · exact Or.inl h
        · exact Or.inr (by obtain ⟨line, hl, hc⟩ := h; exact ⟨line, Or.inr hl, hc⟩)
      · rintro (h | ⟨line, hl | hl, hc⟩)
        · exact Or.inl h
        · exfalso
          subst hl
          rcases Bool.or_eq_true_iff.mp h1 with h2 | h2
          · rw [hc.1] at h2; exact Bool.false_ne_true h2
          · rw [hc.2.1] at h2; exact Bool.false_ne_true h2
        · exact Or.inr ⟨line, hl, hc⟩
    · have h1' := Bool.or_eq_false_iff.mp (Bool.eq_false_iff.mpr h1)
      rw [if_neg h1]
      cases hp : parseI64 (strTrim l) with
      | none =>
        dsimp only
        constructor
        · rintro (h | h)
          · exact Or.inl h
          · exact Or.inr (by obtain ⟨line, hl, hc⟩ := h; exact ⟨line, Or.inr hl, hc⟩)
        · rintro (h | ⟨line, hl | hl, hc⟩)
          · exact Or.inl h
          · exfalso; subst hl; rw [hc.2.2] at hp; exact Option.noConfusion hp
          · exact Or.inr ⟨line, hl, hc⟩
      | some id =>
        dsimp only
        rw [mem_hsInsert]
        constructor
        · rintro ((h | rfl) | h)
          · exact Or.inl h
          · exact Or.inr ⟨l, Or.inl rfl, h1'.1, h1'.2, hp⟩
          · exact Or.inr (by obtain ⟨line, hl, hc⟩ := h; exact ⟨line, Or.inr hl, hc⟩)
        · rintro (h | ⟨line, hl | hl, hc⟩)
          · exact Or.inl (Or.inl h)
          · subst hl
            rw [hc.2.2] at hp
            exact Or.inl (Or.inr (Option.some.inj hp))
          · exact Or.inr ⟨line, hl, hc⟩

/-! ## Claims -/

/-- C1: after a successful run of `zbx_setup`, an immediate second run with
the same configuration issues no state-changing call (its trace is exactly
the three read calls) and returns the remote state unchanged — so no
duplicate contact-address entry is inserted, no duplicate alerting rule is
created, and the channel parameter list keeps its length. -/
theorem C1_zbx_setup_idempotent (cfg : Config) (s s1 : ZbxState) (calls : List Call)
    (h : zbx_setup cfg s = (calls, .ok s1)) :
    zbx_setup cfg s1 =
      ([.mediatypeGet "Telegram", .userGet cfg.userAlias, .actionGet cfg.actionName],
       .ok s1) ∧
    ∀ c ∈ (zbx_setup cfg s1).1, c.isWrite = false := by
  obtain ⟨mt, u, hmt, hu, hs1⟩ := zbx_setup_ok_inv cfg s s1 calls h
  have hMT : s1.mediaTypes = ((channelStep cfg.botToken mt s).1).mediaTypes := by
    rw [hs1, actionStep_mediaTypes, userStep_mediaTypes]
  obtain ⟨mt1, hfm1, hid1, hcs1⟩ := channelStep_stable cfg.botToken mt s hmt s1 hMT
  have hUS : s1.users =
      ((userStep mt.mediatypeid cfg.chatId u (channelStep cfg.botToken mt s).1).1).users := by
    rw [hs1, actionStep_users]
  obtain ⟨u1, hfu1, huid1, hus1⟩ :=
    userStep_stable mt.mediatypeid cfg.chatId cfg.userAlias u _ hu s1 hUS
  have hAS : actionStep cfg.actionName mt.mediatypeid u.userid s1 = (s1, []) :=
    actionStep_stable cfg.actionName mt.mediatypeid u.userid _ s1 (by rw [hs1]) _ _
  have hrun : zbx_setup cfg s1 =
      ([.mediatypeGet "Telegram", .userGet cfg.userAlias, .actionGet cfg.actionName],
       .ok s1) := by
    unfold zbx_setup
    rw [hfm1]
    simp only [hcs1, hid1, hfu1, hus1, huid1, hAS]
    simp
  refine ⟨hrun, ?_⟩
  rw [hrun]
  intro c hc
  rcases hc with _ | ⟨_, _ | ⟨_, _ | ⟨_, h⟩⟩⟩ <;> first | rfl | cases h

/-- C1 witness: at the concrete fixture, the first run writes (token update,
media append, action create) and the second run is read-only. -/
theorem C1_witness :
    zbx_setup cfgEx stEx' =
      ([.mediatypeGet "Telegram", .userGet cfgEx.userAlias, .actionGet cfgEx.actionName],
       .ok stEx') ∧
    ∀ c ∈ (zbx_setup cfgEx stEx').1, c.isWrite = false :=
  C1_zbx_setup_idempotent cfgEx stEx stEx' (zbx_setup cfgEx stEx).1 (by rfl)

/-- C2: when no existing contact-address entry matches the desired
(channel id, destination), the recipient-update call carries the full
resulting list: every pre-existing entry preserved exactly, in its original
position, with the single new entry appended at the end. -/
theorem C2_recipient_update_preserves (mediatypeid chatId : String)
    (medias : List UserMedia)
    (h : medias.any (mediaMatches mediatypeid chatId) = false) :
    ∃ result, recipientReconcile mediatypeid chatId medias = some result ∧
      result = medias ++ [defaultMedia mediatypeid chatId] ∧
      result.length = medias.length + 1 ∧
      (∀ i, i < medias.length → result[i]? = medias[i]?) ∧
      result[medias.length]? = some (defaultMedia mediatypeid chatId) := by
  refine ⟨medias ++ [defaultMedia mediatypeid chatId], ?_, rfl, by simp, ?_, ?_⟩
  · unfold recipientReconcile
    simp [h]
  · intro i hi
    rw [List.getElem?_append]
    simp [hi]
  · exact List.getElem?_concat_length medias (defaultMedia mediatypeid chatId)

/-- C2 witness: appending destination "456" next to an unrelated existing
entry keeps the existing entry at index 0. -/
theorem C2_witness :
    ∃ result, recipientReconcile "5" "456" [defaultMedia "5" "123"] = some result ∧
      result = [defaultMedia "5" "123"] ++ [defaultMedia "5" "456"] ∧
      result.length = [defaultMedia "5" "123"].length + 1 ∧
      (∀ i, i < [defaultMedia "5" "123"].length →
        result[i]? = [defaultMedia "5" "123"][i]?) ∧
      result[[defaultMedia "5" "123"].length]? = some (defaultMedia "5" "456") :=
  C2_recipient_update_preserves "5" "456" [defaultMedia "5" "123"] (by rfl)

/-- C3: when some existing contact-address entry has the desired
(channel id, destination) pair — whatever its enabled flag, severity and
period — no recipient-update is issued; at the two concrete §8 instances,
desired ("5","123") against existing [("5","123")] issues no update, and
desired ("5","456") yields the original entry followed by the new one. -/
theorem C3_recipient_duplicate_noop :
    (∀ mediatypeid chatId (medias : List UserMedia),
      (∃ m ∈ medias, m.mediatypeid = mediatypeid ∧ m.sendto = chatId) →
      recipientReconcile mediatypeid chatId medias = none) ∧
    (∀ a sv p, recipientReconcile "5" "123"
        [{ mediatypeid := "5", sendto := "123", active := a, severity := sv,
           period := p }] = none) ∧
    recipientReconcile "5" "456"
        [{ mediatypeid := "5", sendto := "123", active := "0", severity := "63",
           period := "1-7,00:00-24:00" }] =
      some [{ mediatypeid := "5", sendto := "123", active := "0", severity := "63",
              period := "1-7,00:00-24:00" },
            defaultMedia "5" "456"] := by
  refine ⟨?_, ?_, by rfl⟩
  · rintro mid cid medias ⟨m, hm, h1, h2⟩
    have hany : medias.any (mediaMatches mid cid) = true := by
      rw [List.any_eq_true]
      exact ⟨m, hm, by simp [mediaMatches, h1, h2]⟩
    unfold recipientReconcile
    simp [hany]
  · intro a sv p
    unfold recipientReconcile
    simp [mediaMatches]

/-- C3 witness: an entry matching on the pair but with non-default enabled
flag, severity and period still suppresses the update. -/
theorem C3_witness :
    recipientReconcile "5" "123"
      [{ mediatypeid := "5", sendto := "123", active := "1", severity := "40",
         period := "always" }] = none :=
  C3_recipient_duplicate_noop.1 "5" "123"
    [{ mediatypeid := "5", sendto := "123", active := "1", severity := "40",
       period := "always" }]
    ⟨{ mediatypeid := "5", sendto := "123", active := "1", severity := "40",
       period := "always" }, by simp, rfl, rfl⟩

/-- C4: a channel-update is flagged iff some parameter whose key
case-insensitively means "token" (`token`/`bottoken`) has no value or a value
differing from the desired secret; the rewritten list keeps length and order,
leaves every entry without such a key untouched, and in a rewritten token
entry only the `value` key changes (to the secret) while every other
key/value pair is preserved; the update call, when the media type carries
this parameter list, is issued exactly when the scan flagged a change and
carries the entire rewritten list; and the §8 example evaluates as stated. -/
theorem C4_channel_token_rewrite (tok : String) (params : List Param) :
    ((mtReconcile tok params).2 = true ↔
      ∃ p ∈ params, ∃ n, hmGet p "name" = some n ∧
        (strToLower n = "token" ∨ strToLower n = "bottoken") ∧
        hmGet p "value" ≠ some tok) ∧
    (mtReconcile tok params).1.length = params.length ∧
    (∀ i, i < params.length → ∀ p, params[i]? = some p →
      ((updateParam tok p).2 = false → (mtReconcile tok params).1[i]? = some p) ∧
      ((updateParam tok p).2 = true →
        (mtReconcile tok params).1[i]? = some (hmInsert p "value" tok) ∧
        hmGet (hmInsert p "value" tok) "value" = some tok ∧
        ∀ k, k ≠ "value" → hmGet (hmInsert p "value" tok) k = hmGet p k)) ∧
    (∀ (mt : MediaType) (s : ZbxState), mt.parameters = some params →
      ((channelStep (some tok) mt s).2 = [] ↔ (mtReconcile tok params).2 = false) ∧
      ((mtReconcile tok params).2 = true →
        (channelStep (some tok) mt s).2 =
          [Call.mediatypeUpdate mt.mediatypeid (mtReconcile tok params).1])) ∧
    mtReconcile "NEW"
        [[("name", "Token"), ("value", "OLD")], [("name", "Foo"), ("value", "Bar")]] =
      ([[("name", "Token"), ("value", "NEW")], [("name", "Foo"), ("value", "Bar")]],
       true) := by
  refine ⟨?_, ?_, ?_, ?_, by rfl⟩
  · rw [mtReconcile_snd, List.any_eq_true]
    constructor
    · rintro ⟨p, hp, hd⟩
      obtain ⟨n, h1, h2, h3⟩ := (updateParam_dirty_iff tok p).mp hd
      exact ⟨p, hp, n, h1, h2, h3⟩
    · rintro ⟨p, hp, n, h1, h2, h3⟩
      exact ⟨p, hp, (updateParam_dirty_iff tok p).mpr ⟨n, h1, h2, h3⟩⟩
  · rw [mtReconcile_fst]; simp
  · intro i hi p hp
    have hmap : (mtReconcile tok params).1[i]? = some (updateParam tok p).1 := by
      rw [mtReconcile_fst, List.getElem?_map, hp]
      rfl
    constructor
    · intro hclean
      rw [hmap, updateParam_of_clean tok p hclean]
    · intro hdirty
      refine ⟨by rw [hmap, updateParam_of_dirty tok p hdirty], ?_, ?_⟩
      · exact hmGet_hmInsert_self p "value" tok
      · intro k hk
        exact hmGet_hmInsert_ne p "value" tok k hk
  · intro mt s hp
    constructor
    · unfold channelStep
      rw [hp]
      by_cases hd : (mtReconcile tok params).2 = true
      · simp [hd]
      · simp [hd, Bool.eq_false_iff.mpr hd]
    · intro hd
      unfold channelStep
      rw [hp]
      simp [hd]

/-- C4 witness: in the §8 example the rewritten token entry and the untouched
unrelated entry sit at their original indices. -/
theorem C4_witness :
    ((mtReconcile "NEW"
        [[("name", "Token"), ("value", "OLD")], [("name", "Foo"), ("value", "Bar")]]).2 =
          true ↔
      ∃ p ∈ [[("name", "Token"), ("value", "OLD")], [("name", "Foo"), ("value", "Bar")]],
        ∃ n, hmGet p "name" = some n ∧
          (strToLower n = "token" ∨ strToLower n = "bottoken") ∧
          hmGet p "value" ≠ some "NEW") :=
  (C4_channel_token_rewrite "NEW"
    [[("name", "Token"), ("value", "OLD")], [("name", "Foo"), ("value", "Bar")]]).1

/-- C5 (amended): `ZbxClient::login` retries with the old schema iff the
displayed text of the first failure contains "Invalid params" or
`unexpected parameter "username"` — whatever the failure's kind — reusing the
same credentials and returning the second outcome; any failure whose text
lacks both substrings is returned unchanged with no second attempt. -/
theorem C5_login_fallback (user pass : String)
    (respond : LoginAttempt → Except ZbxError String) (e : ZbxError)
    (hfail : respond (.newSchema user pass) = .error e) :
    (retryTriggers e.display = true →
      (login user pass respond).1 = [.newSchema user pass, .oldSchema user pass] ∧
      (login user pass respond).2 = respond (.oldSchema user pass)) ∧
    (retryTriggers e.display = false →
      login user pass respond = ([.newSchema user pass], .error e)) := by
  unfold login
  rw [hfail]
  constructor
  · intro h
    simp [h]
  · intro h
    simp [h]

/-- C5 witness: the legacy RPC complaint triggers exactly one old-schema
retry with the same credentials. -/
theorem C5_witness :
    (login "Admin" "zabbix" respondEx).1 =
      [.newSchema "Admin" "zabbix", .oldSchema "Admin" "zabbix"] ∧
    (login "Admin" "zabbix" respondEx).2 = respondEx (.oldSchema "Admin" "zabbix") :=
  (C5_login_fallback "Admin" "zabbix" respondEx
    (.rpcError (-32602) "Invalid params." none) (by rfl)).1 (by rfl)

/-- C5 counterexample to the claim as stated: a transport failure (HTTP 500,
not an RPC error) whose body happens to contain "Invalid params" also
triggers the old-schema retry, because the source matches on the formatted
message text, not on the failure kind. -/
theorem C5_counterexample :
    (ZbxError.httpError 500 "Invalid params").isRpc = false ∧
    (login "Admin" "zabbix" (fun a =>
        match a with
        | .newSchema _ _ => .error (.httpError 500 "Invalid params")
        | .oldSchema _ _ => .ok "tok")).1 =
      [.newSchema "Admin" "zabbix", .oldSchema "Admin" "zabbix"] :=
  ⟨rfl, by rfl⟩

/-- C6: with zero matching rules, exactly one rule-create call is issued whose
payload is trigger-based (eventsource 0), enabled (status 0), and has exactly
one Operation whose message references the supplied channel identifier and
whose recipient list is exactly the single supplied recipient; with at least
one match, no create call is issued. -/
theorem C6_action_create (n mid uid : String) (s : ZbxState) :
    ((findActions n s).isEmpty = true →
      (actionStep n mid uid s).2 = [Call.actionCreate (mkActionCreate n mid uid)] ∧
      (mkActionCreate n mid uid).eventsource = 0 ∧
      (mkActionCreate n mid uid).status = 0 ∧
      (mkActionCreate n mid uid).operations.length = 1 ∧
      ∀ op ∈ (mkActionCreate n mid uid).operations,
        op.opmessage.mediatypeid = mid ∧ op.opmessage_usr = [{ userid := uid }]) ∧
    ((findActions n s).isEmpty = false → (actionStep n mid uid s).2 = []) := by
  constructor
  · intro h
    refine ⟨by unfold actionStep; simp [h], rfl, rfl, rfl, ?_⟩
    intro op hop
    simp only [mkActionCreate, List.mem_singleton] at hop
    subst hop
    exact ⟨rfl, rfl⟩
  · intro h
    unfold actionStep
    simp [h]

/-- C6 witness: on an empty rule table the create call is issued with the
fixed payload; its single operation carries the supplied identifiers. -/
theorem C6_witness :
    (actionStep "A" "10" "1" { mediaTypes := [], users := [], actions := [] }).2 =
      [Call.actionCreate (mkActionCreate "A" "10" "1")] ∧
    (mkActionCreate "A" "10" "1").eventsource = 0 ∧
    (mkActionCreate "A" "10" "1").status = 0 ∧
    (mkActionCreate "A" "10" "1").operations.length = 1 ∧
    ∀ op ∈ (mkActionCreate "A" "10" "1").operations,
      op.opmessage.mediatypeid = "10" ∧ op.opmessage_usr = [{ userid := "1" }] :=
  (C6_action_create "A" "10" "1" { mediaTypes := [], users := [], actions := [] }).1
    (by rfl)

/-- C7: a non-success HTTP status yields the transport error carrying status
and raw body; a success whose parsed envelope has neither result nor error
yields the protocol-violation error, a constructor distinct from the
transport error; an envelope carrying an error object yields the RPC error
with its code, message and optional data. -/
theorem C7_transport_errors {R : Type} (resp : HttpResponse)
    (parse : String → Option RpcResponse) (decode : JsonValue → Option R) :
    (statusIsSuccess resp.status = false →
      rpc resp parse decode = .error (.httpError resp.status resp.body)) ∧
    (∀ env, statusIsSuccess resp.status = true → parse resp.body = some env →
      env.error = none → env.result = none →
      rpc resp parse decode = (.error .missingResult : Except ZbxError R)) ∧
    (∀ env err, statusIsSuccess resp.status = true → parse resp.body = some env →
      env.error = some err →
      rpc resp parse decode = .error (.rpcError err.code err.message err.data)) ∧
    (∀ st b, ZbxError.missingResult ≠ ZbxError.httpError st b) ∧
    (∀ c m d st b, ZbxError.rpcError c m d ≠ ZbxError.httpError st b) ∧
    (∀ c m d, ZbxError.rpcError c m d ≠ ZbxError.missingResult) := by
  refine ⟨?_, ?_, ?_, ?_, ?_, ?_⟩
  · intro h
    unfold rpc
    simp [h]
  · intro env hs hp he hr
    unfold rpc
    rw [hs]
    simp only [Bool.not_true, Bool.false_eq_true, if_false, hp, he, hr]
  · intro env err hs hp he
    unfold rpc
    rw [hs]
    simp only [Bool.not_true, Bool.false_eq_true, if_false, hp, he]
  · intro st b h
    exact ZbxError.noConfusion h
  · intro c m d st b h
    exact ZbxError.noConfusion h
  · intro c m d h
    exact ZbxError.noConfusion h

/-- C7 witness: an HTTP 500 with body "oops" yields the transport error, and
a 200 whose envelope has neither result nor error yields the protocol
error. -/
theorem C7_witness :
    rpc (R := JsonValue) { status := 500, body := "oops" } (fun _ => none) some =
      .error (.httpError 500 "oops") ∧
    rpc (R := JsonValue) { status := 200, body := "x" }
        (fun _ => some { jsonrpc := "2.0", result := none, error := none, id := 1 })
        some =
      .error .missingResult :=
  ⟨(C7_transport_errors { status := 500, body := "oops" } (fun _ => none) some).1
      (by rfl),
   (C7_transport_errors { status := 200, body := "x" }
      (fun _ => some { jsonrpc := "2.0", result := none, error := none, id := 1 })
      some).2.1
      { jsonrpc := "2.0", result := none, error := none, id := 1 }
      (by rfl) (by rfl) rfl rfl⟩

/-- C8: a channel lookup with zero matches fails the run with the
media-type-not-found error before any other call; a recipient lookup with
zero matches fails the run with the user-not-found error, and the trace then
contains no recipient-update, no rule-list and no rule-create call (only the
reads already made and possibly the earlier channel-update). -/
theorem C8_not_found_aborts (cfg : Config) (s : ZbxState) :
    (findMediaType s = none →
      zbx_setup cfg s = ([.mediatypeGet "Telegram"], .error .mediaTypeNotFound)) ∧
    (∀ mt, findMediaType s = some mt →
      findUser cfg.userAlias (channelStep cfg.botToken mt s).1 = none →
      (zbx_setup cfg s).2 = .error .userNotFound ∧
      (zbx_setup cfg s).1 =
        [.mediatypeGet "Telegram"] ++ (channelStep cfg.botToken mt s).2
          ++ [.userGet cfg.userAlias] ∧
      ∀ c ∈ (zbx_setup cfg s).1,
        (∀ uid ms, c ≠ .userUpdate uid ms) ∧ (∀ nm, c ≠ .actionGet nm) ∧
        ∀ p, c ≠ .actionCreate p) := by
  constructor
  · intro h
    unfold zbx_setup
    rw [h]
  · intro mt hmt hu
    have hrun : zbx_setup cfg s =
        ([.mediatypeGet "Telegram"] ++ (channelStep cfg.botToken mt s).2
          ++ [.userGet cfg.userAlias],
         .error .userNotFound) := by
      unfold zbx_setup
      rw [hmt]
      simp only []
      rw [hu]
    refine ⟨by rw [hrun], by rw [hrun], ?_⟩
    rw [hrun]
    intro c hc
    rcases channelStep_calls cfg.botToken mt s with hch | ⟨ps, hch⟩ <;> rw [hch] at hc
    · simp only [List.append_nil, List.mem_append, List.mem_singleton] at hc
      rcases hc with rfl | rfl <;>
        exact ⟨fun _ _ h => Call.noConfusion h, fun _ h => Call.noConfusion h,
               fun _ h => Call.noConfusion h⟩
    · simp only [List.mem_append, List.mem_singleton] at hc
      rcases hc with (rfl | rfl) | rfl <;>
        exact ⟨fun _ _ h => Call.noConfusion h, fun _ h => Call.noConfusion h,
               fun _ h => Call.noConfusion h⟩

/-- C8 witness: with no media type named Telegram the run stops after the one
list call with the not-found error. -/
theorem C8_witness :
    zbx_setup cfgEx { mediaTypes := [], users := [], actions := [] } =
      ([.mediatypeGet "Telegram"], .error .mediaTypeNotFound) :=
  (C8_not_found_aborts cfgEx { mediaTypes := [], users := [], actions := [] }).1
    (by rfl)

/-- C9: a user id is authorized iff some line of the allow-list file, after
trimming, is non-empty, is not a `#` comment, and parses as that 64-bit
integer. -/
theorem C9_is_authorized_iff (content : String) (userId : Int) :
    is_authorized (read_allowed_users_content content) userId = true ↔
    ∃ line ∈ strLines content,
      strIsEmpty (strTrim line) = false ∧
      strStartsWith (strTrim line) '#' = false ∧
      parseI64 (strTrim line) = some userId := by
  have h1 : is_authorized (read_allowed_users_content content) userId = true ↔
      userId ∈ read_allowed_users_content content := by
    simp [is_authorized, List.contains, List.elem_iff]
  rw [h1]
  unfold read_allowed_users_content
  rw [mem_readUsersFold]
  simp

/-- C9 witness: in the test fixture of src/main.rs, ids 12345 and 67890 are
authorized and the comment and garbage lines contribute nothing. -/
theorem C9_witness :
    (is_authorized
        (read_allowed_users_content "# comment\n  12345  \n\nnotanumber\n67890\n")
        12345 = true) ∧
    (is_authorized
        (read_allowed_users_content "# comment\n  12345  \n\nnotanumber\n67890\n")
        11111 = false) :=
  ⟨(C9_is_authorized_iff "# comment\n  12345  \n\nnotanumber\n67890\n" 12345).mpr
      ⟨"  12345  ", by simp [strLines, splitLines], by rfl, by rfl, by rfl⟩,
   by rfl⟩

/-- C10: a missing allow-list file makes loading succeed with the empty set —
so every user id is unauthorized — any content makes loading succeed, and
only a read error other than not-found makes loading fail. -/
theorem C10_missing_file_empty (userId : Int) (text msg : String) :
    read_allowed_users .notFound = .ok [] ∧
    is_authorized [] userId = false ∧
    (∃ set, read_allowed_users (.content text) = .ok set) ∧
    read_allowed_users (.otherError msg) = .error msg :=
  ⟨rfl, rfl, ⟨read_allowed_users_content text, rfl⟩, rfl⟩

/-- C10 witness: concrete instance of the missing-file behaviour. -/
theorem C10_witness :
    read_allowed_users .notFound = .ok [] ∧
    is_authorized [] 1349552926 = false ∧
    (∃ set, read_allowed_users (.content "42") = .ok set) ∧
    read_allowed_users (.otherError "permission denied") = .error "permission denied" :=
  C10_missing_file_empty 1349552926 "42" "permission denied"

end ZbxBot
